import Mathlib

/-!
Verification of the visitor-counter client (`frontend` `VisitorCounter` class).

The client is browser JavaScript; this file is a shallow embedding of its
observable behavior.  Host-environment effects (the fetch transport, the URL
parser, the DOM, local storage) are passed in explicitly:

* each raw fetch attempt's outcome is a `RawFetch` value (the promise resolved
  with a response, rejected with the abort signal, or rejected with a network
  error), and an operation consumes a list of them, one per attempt;
* `new URL(s)` is the host's parser, so the embedding takes its observable
  outcome (`none` when the constructor throws on a malformed or relative
  string, `some protocol` otherwise);
* the DOM and local storage are a `Dom` record threaded through the rendering
  routines; JavaScript exceptions become `Except` values.

JavaScript numbers are modelled as exact integers (`Int`): every count the
claims touch is integral, and for an integral number `n`,
`parseInt(n, 10) = parseInt(n.toString(), 10) = n`, so the source's
`parseInt` round-trip is the identity in the model.
-/

namespace VisitorCounter

/-- The `CONFIG` record of the source file. -/
structure Config where
  API_URL : String
  ELEMENT_ID : String
  MAX_RETRIES : Nat
  RETRY_DELAY : Nat
  TIMEOUT : Nat
  DEBUG : Bool
  deriving DecidableEq, Repr

/-- The concrete `CONFIG` object the page constructs the counter with. -/
def CONFIG : Config :=
  { API_URL := "https://raj-azure-resume-counter-apim.azure-api.net/raj-azure-resume-counter/counter"
    ELEMENT_ID := "visitor-count"
    MAX_RETRIES := 3
    RETRY_DELAY := 1000
    TIMEOUT := 15000
    DEBUG := true }

/-- A JSON value in the `count` field of a response body.  `num` is a JS
number (modelled as an exact integer); `str` is a string.  Every non-number
JSON value (string, boolean, null, absent field) fails the source's
`typeof count !== 'number'` gate identically, so `str` stands for all of
them. -/
inductive JSValue where
  | num (n : Int)
  | str (s : String)
  deriving DecidableEq, Repr

/-- The pieces of a fetch `Response` the client inspects: `ok`, `status`,
the `content-type` header (`none` when absent), and the parsed body's
`count` field. -/
structure Response where
  ok : Bool
  status : Nat
  contentType : Option String
  count : JSValue
  deriving DecidableEq, Repr

/-- Outcome of one raw `fetch` call: resolved with a response, rejected with
the abort signal (the per-attempt timeout fired, so the caught error's name
is `AbortError`), or rejected with any other transport error. -/
inductive RawFetch where
  | resolved (r : Response)
  | abortError
  | rejected (msg : String)
  deriving DecidableEq, Repr

/-- The failure kinds a request operation can surface. -/
inductive Err where
  | httpStatus (status : Nat)
  | invalidContentType
  | timedOut
  | network (msg : String)
  | invalidCount
  | undefinedResponse
  deriving DecidableEq, Repr

deriving instance DecidableEq for Except

/-- `needle` occurs at some position of `hay` (as a list of characters):
at each position, check whether `needle` is the start of the remaining
suffix. -/
def listIncludes (needle : List Char) : List Char → Bool
  | [] => decide (needle = [])
  | c :: rest => decide (needle = (c :: rest).take needle.length) || listIncludes needle rest

/-- `needle` occurs as a substring of `hay` — JavaScript's
`String.prototype.includes`. -/
def strIncludes (needle hay : String) : Bool :=
  listIncludes needle.data hay.data

/-- The source's content-type guard:
`!contentType || !contentType.includes('application/json')` raises.
A `null` header and the empty string are both falsy. -/
def contentTypeOk : Option String → Bool
  | none => false
  | some ct => !(ct == "") && strIncludes "application/json" ct

/-- What one attempt is caught with: either the abort signal (the caught
error's `name` is `AbortError`) or an ordinary error. -/
inductive AttemptCaught where
  | abortName
  | err (e : Err)
  deriving DecidableEq, Repr

/-- The `try` block of one attempt in `fetchWithRetryAndTimeout`: await the
fetch, raise on a non-ok status, raise on a bad content-type, else return
the response. -/
def tryAttempt : RawFetch → Except AttemptCaught Response
  | .resolved r =>
    if !r.ok then .error (.err (.httpStatus r.status))
    else if !(contentTypeOk r.contentType) then .error (.err .invalidContentType)
    else .ok r
  | .abortError => .error .abortName
  | .rejected msg => .error (.err (.network msg))

/-- An attempt outcome the retry logic would retry: it is caught, and it is
not the abort signal (which the source converts to `'Request timed out'` and
throws before the retry branch). -/
def retryableFail (o : RawFetch) : Bool :=
  match tryAttempt o with
  | .error (.err _) => true
  | _ => false

/-- Observable result of `fetchWithRetryAndTimeout`: the returned response or
thrown error, the number of fetch attempts made, and the backoff delays
awaited between attempts, in order. -/
structure FetchTrace where
  result : Except Err Response
  attemptsMade : Nat
  delays : List Nat
  deriving DecidableEq, Repr

/-- The retry loop body of `fetchWithRetryAndTimeout`.  `i` is the zero-based
attempt index; the list holds the raw outcome of this and all remaining
allowed attempts, so its head is attempt `i` and it is empty only when the
loop has no iterations left (with `MAX_RETRIES = 0` the JS function falls off
the loop and returns `undefined`; `Err.undefinedResponse` stands for that).
On a caught abort the loop throws `'Request timed out'` at once; on another
caught error it rethrows if this was the final allowed attempt, else awaits
`RETRY_DELAY * 2 ^ i` and retries. -/
def fetchLoop (retryDelay : Nat) : Nat → List RawFetch → FetchTrace
  | _, [] => ⟨.error .undefinedResponse, 0, []⟩
  | i, o :: rest =>
    match tryAttempt o with
    | .ok r => ⟨.ok r, 1, []⟩
    | .error .abortName => ⟨.error .timedOut, 1, []⟩
    | .error (.err e) =>
      match rest with
      | [] => ⟨.error e, 1, []⟩
      | _ :: _ =>
        let t := fetchLoop retryDelay (i + 1) rest
        ⟨t.result, t.attemptsMade + 1, retryDelay * 2 ^ i :: t.delays⟩

/-- `fetchWithRetryAndTimeout`: run the loop for at most `MAX_RETRIES`
attempts, starting at attempt index 0. -/
def fetchWithRetryAndTimeout (cfg : Config) (outcomes : List RawFetch) : FetchTrace :=
  fetchLoop cfg.RETRY_DELAY 0 (outcomes.take cfg.MAX_RETRIES)

/-- `Number.MAX_SAFE_INTEGER`. -/
def MAX_SAFE_INTEGER : Int := 9007199254740991

/-- `isValidVisitorCount`: `typeof count !== 'number'` rejects every
non-number value; for a number, `parseInt(count, 10)` re-parses its decimal
string (the identity on an integral number, never `NaN`), and the result
must lie in `[0, MAX_SAFE_INTEGER]`. -/
def isValidVisitorCount : JSValue → Bool
  | .num n => decide (0 ≤ n) && decide (n ≤ MAX_SAFE_INTEGER)
  | .str _ => false

/-- Observable result of `makeRequest`: the returned count or thrown error,
plus the attempt count and delays of the underlying fetch. -/
structure ReqTrace where
  result : Except Err JSValue
  attemptsMade : Nat
  delays : List Nat
  deriving DecidableEq, Repr

/-- `makeRequest`: build the options (headers do not affect the modelled
behavior), run `fetchWithRetryAndTimeout`, parse the body, and validate
`data.count`; an invalid count raises after the fetch already returned, so
validation failure triggers no further attempt. -/
def makeRequest (cfg : Config) (outcomes : List RawFetch) : ReqTrace :=
  let t := fetchWithRetryAndTimeout cfg outcomes
  match t.result with
  | .error e => ⟨.error e, t.attemptsMade, t.delays⟩
  | .ok r =>
    if isValidVisitorCount r.count then ⟨.ok r.count, t.attemptsMade, t.delays⟩
    else ⟨.error .invalidCount, t.attemptsMade, t.delays⟩

/-- The DOM and local-storage state the client touches: whether the container
element (id `ELEMENT_ID`) exists, whether the nested `count-value` element
exists, the container's text content / class list / aria-label, the value
element's text content and aria-label, and the `visitorCount` local-storage
entry (`none` when the key is absent). -/
structure Dom where
  containerExists : Bool
  countValueExists : Bool
  containerText : String
  containerClasses : List String
  containerAria : Option String
  valueText : String
  valueAria : Option String
  storage : Option String
  deriving DecidableEq, Repr

/-- `count.toString().replace(/[^\d]/g, '')`: keep only the decimal digits. -/
def sanitize (s : String) : String :=
  String.mk (s.data.filter Char.isDigit)

/-- `count.toString()` for the values in scope. -/
def jsToString : JSValue → String
  | .num n => toString n
  | .str s => s

/-- `updateDOM`: write the digits-only form of the count to local storage
under `visitorCount`; then, if the `count-value` element exists, read the
stored string back and use it (not the in-memory count) as the displayed
text and in the aria-label; a missing value element is only logged. -/
def updateDOM (count : JSValue) (st : Dom) : Dom :=
  let written := sanitize (jsToString count)
  let st1 := { st with storage := some written }
  if st1.countValueExists then
    let cached := st1.storage.getD ""
    { st1 with
      valueText := cached
      valueAria := some ("Visitor count: " ++ cached) }
  else st1

/-- `handleError`: if the container element exists, set its text content to
the fixed failure message (text assignment removes the nested `count-value`
child), add the `counter-error` class (`classList.add` is a no-op when the
class is present), and set the error aria-label; if it is absent, do
nothing visible. -/
def handleError (st : Dom) : Dom :=
  if st.containerExists then
    { st with
      containerText := "Unable to load visitor count"
      countValueExists := false
      containerClasses :=
        if "counter-error" ∈ st.containerClasses then st.containerClasses
        else st.containerClasses ++ ["counter-error"]
      containerAria := some "Error loading visitor count" }
  else st

/-- The loading render in `initialize`: assigning the container's `innerHTML`
replaces its content with a fresh `count-value` span showing the loading
text (no aria-label on the fresh span). -/
def renderLoading (st : Dom) : Dom :=
  { st with
    countValueExists := true
    containerText := ""
    valueText := "Loading..."
    valueAria := none }

/-- Observable result of one top-level operation (`incrementVisitorCount` or
`updateVisitorCount`): the DOM/storage state after it, the count it returned
or the error it rethrew, and how many fetch attempts it made. -/
structure OpResult where
  dom : Dom
  result : Except Err JSValue
  attemptsMade : Nat
  deriving DecidableEq, Repr

/-- `incrementVisitorCount`: POST via `makeRequest`; on success render the
count; on failure render the error state and rethrow. -/
def incrementVisitorCount (cfg : Config) (outcomes : List RawFetch) (st : Dom) : OpResult :=
  match (makeRequest cfg outcomes).result with
  | .ok c => ⟨updateDOM c st, .ok c, (makeRequest cfg outcomes).attemptsMade⟩
  | .error e => ⟨handleError st, .error e, (makeRequest cfg outcomes).attemptsMade⟩

/-- `updateVisitorCount`: GET via `makeRequest`; on success render the count;
on failure render the error state and rethrow. -/
def updateVisitorCount (cfg : Config) (outcomes : List RawFetch) (st : Dom) : OpResult :=
  match (makeRequest cfg outcomes).result with
  | .ok c => ⟨updateDOM c st, .ok c, (makeRequest cfg outcomes).attemptsMade⟩
  | .error e => ⟨handleError st, .error e, (makeRequest cfg outcomes).attemptsMade⟩

/-- The host-environment inputs `initialize` consumes: the outcome of parsing
`API_URL` with `new URL` (`none` when the constructor throws, `some protocol`
otherwise), and the raw outcome of each allowed POST and GET attempt. -/
structure Env where
  urlProtocol : Option String
  postOutcomes : List RawFetch
  getOutcomes : List RawFetch

/-- Observable result of `initialize`: the final DOM/storage state, the
number of fetch attempts issued by the POST (increment) and by the GET
(read), and whether initialization completed without an error. -/
structure InitResult where
  dom : Dom
  postAttempts : Nat
  getAttempts : Nat
  succeeded : Bool
  deriving DecidableEq, Repr

/-- `isValidUrl` on the observable outcome of `new URL(string)`: false when
the constructor throws, else the protocol must be `http:` or `https:`. -/
def isValidUrl (parsed : Option String) : Bool :=
  match parsed with
  | none => false
  | some protocol => protocol == "http:" || protocol == "https:"

/-- `initialize`: validate the URL (an invalid one raises before any element
access or request); read the container element and assign its `innerHTML`
(on a missing container the property access on `null` raises a `TypeError`
before any request); then await the increment and then the read.  Any raised
error lands in the `catch`, which calls `handleError` — for a failed
operation this is the second `handleError`, since the operation already
called it before rethrowing. -/
def initCounter (cfg : Config) (env : Env) (st : Dom) : InitResult :=
  if !(isValidUrl env.urlProtocol) then
    ⟨handleError st, 0, 0, false⟩
  else if !st.containerExists then
    ⟨handleError st, 0, 0, false⟩
  else
    let st1 := renderLoading st
    let inc := incrementVisitorCount cfg env.postOutcomes st1
    match inc.result with
    | .error _ => ⟨handleError inc.dom, inc.attemptsMade, 0, false⟩
    | .ok _ =>
      let upd := updateVisitorCount cfg env.getOutcomes inc.dom
      match upd.result with
      | .error _ => ⟨handleError upd.dom, inc.attemptsMade, upd.attemptsMade, false⟩
      | .ok _ => ⟨upd.dom, inc.attemptsMade, upd.attemptsMade, true⟩

/-- A resolved fetch whose response is ok, JSON-typed, and carries `c` as the
body's count: the shape a fully successful HTTP exchange takes. -/
def jsonOkWith (c : JSValue) : RawFetch :=
  .resolved { ok := true, status := 200, contentType := some "application/json", count := c }

/-- One loop step on a successful attempt: the response is returned, with one
attempt made and no delay. -/
theorem fetchLoop_success (d i : Nat) (x : RawFetch) (r : Response) (rest : List RawFetch)
    (htry : tryAttempt x = .ok r) :
    fetchLoop d i (x :: rest) = ⟨.ok r, 1, []⟩ := by
  simp only [fetchLoop, htry]

/-- One loop step on an aborted attempt: the catch sees `AbortError` and
throws `'Request timed out'` at once, before the retry branch, so the
remaining allowed attempts are never made and no delay is awaited. -/
theorem fetchLoop_abort (d i : Nat) (rest : List RawFetch) :
    fetchLoop d i (.abortError :: rest) = ⟨.error .timedOut, 1, []⟩ := by
  simp only [fetchLoop, tryAttempt]

/-- One loop step on a caught non-abort failure of the final allowed attempt:
the error is rethrown with no further delay. -/
theorem fetchLoop_last_fail (d i : Nat) (x : RawFetch) (e : Err)
    (htry : tryAttempt x = .error (.err e)) :
    fetchLoop d i [x] = ⟨.error e, 1, []⟩ := by
  simp only [fetchLoop, htry]

/-- One loop step on a caught non-abort failure with attempts remaining:
await `d * 2 ^ i` and retry at attempt index `i + 1`. -/
theorem fetchLoop_cons_fail (d i : Nat) (x : RawFetch) (e : Err) (y : RawFetch)
    (ys : List RawFetch) (htry : tryAttempt x = .error (.err e)) :
    fetchLoop d i (x :: y :: ys) =
      ⟨(fetchLoop d (i + 1) (y :: ys)).result,
       (fetchLoop d (i + 1) (y :: ys)).attemptsMade + 1,
       d * 2 ^ i :: (fetchLoop d (i + 1) (y :: ys)).delays⟩ := by
  simp only [fetchLoop, htry]

/-- A retryable failure is a caught non-abort error of some kind. -/
theorem retryableFail_spec (x : RawFetch) (hx : retryableFail x = true) :
    ∃ e, tryAttempt x = .error (.err e) := by
  unfold retryableFail at hx
  cases h : tryAttempt x with
  | ok r => rw [h] at hx; simp at hx
  | error ac =>
    cases ac with
    | abortName => rw [h] at hx; simp at hx
    | err e => exact ⟨e, rfl⟩

/-- Stepping lemma for the retry loop: a block of retryable failures in
front of the remaining outcomes adds one attempt and one backoff delay per
failure and defers the outcome to the rest of the loop, started at the
shifted attempt index. -/
theorem fetchLoop_retryPrefix (d : Nat) (rest : List RawFetch) (hrest : rest ≠ []) :
    ∀ (l : List RawFetch), (∀ x ∈ l, retryableFail x = true) → ∀ i : Nat,
      fetchLoop d i (l ++ rest) =
        ⟨(fetchLoop d (i + l.length) rest).result,
         (fetchLoop d (i + l.length) rest).attemptsMade + l.length,
         (List.range' i l.length).map (fun j => d * 2 ^ j) ++
           (fetchLoop d (i + l.length) rest).delays⟩ := by
  intro l
  induction l with
  | nil => intro _ i; simp [List.range']
  | cons x xs ih =>
    intro hl i
    obtain ⟨e, htry⟩ := retryableFail_spec x (hl x (List.mem_cons_self x xs))
    have hxs : ∀ y ∈ xs, retryableFail y = true :=
      fun y hy => hl y (List.mem_cons_of_mem x hy)
    obtain ⟨y, ys, hxr⟩ : ∃ y ys, xs ++ rest = y :: ys := by
      cases hc : xs ++ rest with
      | nil => exact absurd (List.append_eq_nil.mp hc).2 hrest
      | cons y ys => exact ⟨y, ys, rfl⟩
    have hstep : fetchLoop d i ((x :: xs) ++ rest) =
        ⟨(fetchLoop d (i + 1) (xs ++ rest)).result,
         (fetchLoop d (i + 1) (xs ++ rest)).attemptsMade + 1,
         d * 2 ^ i :: (fetchLoop d (i + 1) (xs ++ rest)).delays⟩ := by
      rw [List.cons_append, hxr]
      exact fetchLoop_cons_fail d i x e y ys htry
    rw [hstep, ih hxs (i + 1)]
    have harith : i + 1 + xs.length = i + (xs.length + 1) := by omega
    simp [harith, List.range'_succ, Nat.add_assoc]

/-- C3: when every one of the `MAX_RETRIES` allowed attempts fails with a
retryable (caught, non-abort) error, exactly `MAX_RETRIES` fetch attempts
occur, the awaited delays are `RETRY_DELAY * 2 ^ i` for zero-based attempt
index `i = 0, ..., MAX_RETRIES - 2`, no delay follows the final attempt,
and the final attempt's error is the one thrown to the caller. -/
theorem retry_budget_and_backoff (cfg : Config) (l : List RawFetch) (o : RawFetch) (e : Err)
    (hlen : l.length + 1 = cfg.MAX_RETRIES)
    (hl : ∀ x ∈ l, retryableFail x = true)
    (ho : tryAttempt o = .error (.err e)) :
    fetchWithRetryAndTimeout cfg (l ++ [o]) =
      { result := .error e
        attemptsMade := cfg.MAX_RETRIES
        delays := (List.range (cfg.MAX_RETRIES - 1)).map (fun j => cfg.RETRY_DELAY * 2 ^ j) } := by
  unfold fetchWithRetryAndTimeout
  have htake : (l ++ [o]).take cfg.MAX_RETRIES = l ++ [o] :=
    List.take_of_length_le (by simp [← hlen])
  rw [htake, fetchLoop_retryPrefix cfg.RETRY_DELAY [o] (by simp) l hl 0,
    fetchLoop_last_fail _ _ o e ho]
  simp [← hlen, List.range_eq_range', Nat.add_comm]

/-- Witness for C3 at the concrete configuration: three transport-rejected
attempts give three attempts, delays 1000 and 2000 ms, and the last error. -/
theorem retry_budget_and_backoff_witness :
    fetchWithRetryAndTimeout CONFIG [.rejected "a", .rejected "b", .rejected "c"] =
      { result := .error (.network "c"), attemptsMade := 3, delays := [1000, 2000] } := by
  have h := retry_budget_and_backoff CONFIG [.rejected "a", .rejected "b"] (.rejected "c")
    (.network "c") (by rfl) (by decide) (by rfl)
  simpa using h

/-- C1 counterexample: the first attempt times out (the fetch is rejected
with the abort signal) and both remaining allowed attempts would succeed,
yet only one of the three allowed attempts is made and the timeout
propagates at once — the timed-out attempt is not retried. -/
theorem timeout_retried_cex :
    fetchWithRetryAndTimeout CONFIG [.abortError, jsonOkWith (.num 5), jsonOkWith (.num 5)] =
      { result := .error .timedOut, attemptsMade := 1, delays := [] } ∧
    (1 : Nat) ≠ CONFIG.MAX_RETRIES := by
  exact ⟨rfl, by decide⟩

/-- C1 amended: a timeout is never retried.  After any block of retryable
failures, an attempt whose fetch is rejected with the abort signal makes the
operation throw the distinct `'Request timed out'` failure immediately, with
no backoff delay after the aborted attempt and with the remaining allowed
attempts never made. -/
theorem timeout_propagates_immediately (cfg : Config) (l rest : List RawFetch)
    (hl : ∀ x ∈ l, retryableFail x = true)
    (hlen : l.length < cfg.MAX_RETRIES) :
    fetchWithRetryAndTimeout cfg (l ++ .abortError :: rest) =
      { result := .error .timedOut
        attemptsMade := l.length + 1
        delays := (List.range l.length).map (fun j => cfg.RETRY_DELAY * 2 ^ j) } := by
  unfold fetchWithRetryAndTimeout
  have htake : (l ++ .abortError :: rest).take cfg.MAX_RETRIES
      = l ++ .abortError :: rest.take (cfg.MAX_RETRIES - l.length - 1) := by
    rw [List.take_append_eq_append_take, List.take_of_length_le (by omega)]
    congr 1
    have hsucc : cfg.MAX_RETRIES - l.length = (cfg.MAX_RETRIES - l.length - 1) + 1 := by omega
    rw [hsucc, List.take_succ_cons, Nat.add_sub_cancel]
  rw [htake, fetchLoop_retryPrefix cfg.RETRY_DELAY _ (by simp) l hl 0, fetchLoop_abort]
  simp [List.range_eq_range', Nat.add_comm]

/-- Witness for the amended C1: one retryable failure, then a timeout; two
of the three allowed attempts occur, one backoff delay was awaited, and the
distinct timed-out failure propagates. -/
theorem timeout_propagates_immediately_witness :
    fetchWithRetryAndTimeout CONFIG [.rejected "a", .abortError, jsonOkWith (.num 5)] =
      { result := .error .timedOut, attemptsMade := 2, delays := [1000] } := by
  have h := timeout_propagates_immediately CONFIG [.rejected "a"] [jsonOkWith (.num 5)]
    (by decide) (by decide)
  simpa using h

/-- A fully successful exchange passes both per-attempt checks. -/
theorem tryAttempt_jsonOk (c : JSValue) :
    tryAttempt (jsonOkWith c) =
      .ok { ok := true, status := 200, contentType := some "application/json", count := c } := rfl

/-- `makeRequest` when the first attempt's exchange succeeds: one fetch
attempt, no delay, and the outcome is decided by count validation alone. -/
theorem makeRequest_first_success (cfg : Config) (c : JSValue) (rest : List RawFetch)
    (hmr : 1 ≤ cfg.MAX_RETRIES) :
    makeRequest cfg (jsonOkWith c :: rest) =
      if isValidVisitorCount c then ⟨.ok c, 1, []⟩
      else ⟨.error .invalidCount, 1, []⟩ := by
  unfold makeRequest fetchWithRetryAndTimeout
  obtain ⟨k, hk⟩ : ∃ k, cfg.MAX_RETRIES = k + 1 := ⟨cfg.MAX_RETRIES - 1, by omega⟩
  rw [hk, List.take_succ_cons,
    fetchLoop_success cfg.RETRY_DELAY 0 (jsonOkWith c) _ _ (tryAttempt_jsonOk c)]

/-- C2 counterexample: the count transmitted as the numeric string "42"
does not pass response validation and is rejected by `makeRequest`, while
the same value transmitted as a number is accepted. -/
theorem numeric_string_count_cex :
    isValidVisitorCount (.str "42") = false ∧
    (makeRequest CONFIG [jsonOkWith (.str "42")]).result = .error .invalidCount ∧
    (makeRequest CONFIG [jsonOkWith (.num 42)]).result = .ok (.num 42) := by
  exact ⟨rfl, rfl, rfl⟩

/-- C2 amended: response validation accepts only number-typed counts.  A
count transmitted as a string — numeric or not — fails the
`typeof count !== 'number'` gate and makes `makeRequest` throw the
validation error, while the same value transmitted as a number within
`[0, MAX_SAFE_INTEGER]` passes validation and is returned. -/
theorem only_number_counts_accepted (cfg : Config) (s : String) (n : Int)
    (rest : List RawFetch) (hmr : 1 ≤ cfg.MAX_RETRIES)
    (h0 : 0 ≤ n) (h1 : n ≤ MAX_SAFE_INTEGER) :
    isValidVisitorCount (.str s) = false ∧
    isValidVisitorCount (.num n) = true ∧
    (makeRequest cfg (jsonOkWith (.str s) :: rest)).result = .error .invalidCount ∧
    (makeRequest cfg (jsonOkWith (.num n) :: rest)).result = .ok (.num n) := by
  have hv : isValidVisitorCount (.num n) = true := by
    simp [isValidVisitorCount, h0, h1]
  refine ⟨rfl, hv, ?_, ?_⟩
  · rw [makeRequest_first_success cfg _ rest hmr]
    simp [isValidVisitorCount]
  · rw [makeRequest_first_success cfg _ rest hmr]
    simp [hv]

/-- Witness for the amended C2 at the string "42" and the number 42. -/
theorem only_number_counts_accepted_witness :
    isValidVisitorCount (.str "42") = false ∧
    isValidVisitorCount (.num 42) = true ∧
    (makeRequest CONFIG [jsonOkWith (.str "42")]).result = .error .invalidCount ∧
    (makeRequest CONFIG [jsonOkWith (.num 42)]).result = .ok (.num 42) := by
  have h := only_number_counts_accepted CONFIG "42" 42 [] (by decide) (by decide) (by decide)
  simpa using h

/-- C5: a successfully fetched JSON response whose body count is `-1`, the
string "abc", or `9007199254740993` (above `MAX_SAFE_INTEGER`) fails
validation, and `makeRequest` throws the validation error after the single
successful fetch attempt: no retry occurs and no backoff delay is awaited,
even though further attempts were allowed. -/
theorem invalid_count_fails_without_retry :
    makeRequest CONFIG [jsonOkWith (.num (-1)), jsonOkWith (.num 5), jsonOkWith (.num 5)] =
      { result := .error .invalidCount, attemptsMade := 1, delays := [] } ∧
    makeRequest CONFIG [jsonOkWith (.str "abc"), jsonOkWith (.num 5), jsonOkWith (.num 5)] =
      { result := .error .invalidCount, attemptsMade := 1, delays := [] } ∧
    makeRequest CONFIG
        [jsonOkWith (.num 9007199254740993), jsonOkWith (.num 5), jsonOkWith (.num 5)] =
      { result := .error .invalidCount, attemptsMade := 1, delays := [] } := by
  exact ⟨rfl, rfl, rfl⟩

/-- A concrete fresh page state for witnesses: the container element exists,
no value element yet, empty container, nothing stored. -/
def dom0 : Dom :=
  { containerExists := true, countValueExists := false, containerText := ""
    containerClasses := [], containerAria := none, valueText := ""
    valueAria := none, storage := none }

/-- C4: for every configured endpoint URL that fails validation — the URL
constructor throws (relative path or malformed string) or the parsed scheme
is neither `http:` nor `https:` — initialization renders the error state
into the container and issues zero network requests. -/
theorem invalid_url_renders_error_no_requests (cfg : Config) (env : Env) (st : Dom)
    (hurl : isValidUrl env.urlProtocol = false) (hc : st.containerExists = true) :
    (initCounter cfg env st).postAttempts = 0 ∧
    (initCounter cfg env st).getAttempts = 0 ∧
    (initCounter cfg env st).succeeded = false ∧
    (initCounter cfg env st).dom.containerText = "Unable to load visitor count" ∧
    "counter-error" ∈ (initCounter cfg env st).dom.containerClasses ∧
    (initCounter cfg env st).dom.containerAria = some "Error loading visitor count" := by
  unfold initCounter
  rw [hurl]
  by_cases hmem : "counter-error" ∈ st.containerClasses <;>
    simp [handleError, hc, hmem]

/-- Witness for C4: a configuration whose URL parses with scheme `ftp:`
renders the error state and makes no request. -/
theorem invalid_url_renders_error_no_requests_witness :
    (initCounter CONFIG ⟨some "ftp:", [], []⟩ dom0).postAttempts = 0 ∧
    (initCounter CONFIG ⟨some "ftp:", [], []⟩ dom0).getAttempts = 0 ∧
    (initCounter CONFIG ⟨some "ftp:", [], []⟩ dom0).succeeded = false ∧
    (initCounter CONFIG ⟨some "ftp:", [], []⟩ dom0).dom.containerText
      = "Unable to load visitor count" ∧
    "counter-error" ∈ (initCounter CONFIG ⟨some "ftp:", [], []⟩ dom0).dom.containerClasses ∧
    (initCounter CONFIG ⟨some "ftp:", [], []⟩ dom0).dom.containerAria
      = some "Error loading visitor count" :=
  invalid_url_renders_error_no_requests CONFIG ⟨some "ftp:", [], []⟩ dom0 (by decide) (by decide)

/-- C6: when the increment (POST) operation fails terminally, the read
(GET) request is never attempted — zero GET fetch attempts in the page
load — and the final rendered state is the fixed error message with the
`counter-error` marker class on the container. -/
theorem increment_failure_skips_read (cfg : Config) (env : Env) (st : Dom) (e : Err)
    (hurl : isValidUrl env.urlProtocol = true) (hc : st.containerExists = true)
    (hpost : (makeRequest cfg env.postOutcomes).result = .error e) :
    (initCounter cfg env st).getAttempts = 0 ∧
    (initCounter cfg env st).succeeded = false ∧
    (initCounter cfg env st).dom.containerText = "Unable to load visitor count" ∧
    "counter-error" ∈ (initCounter cfg env st).dom.containerClasses ∧
    (initCounter cfg env st).dom.containerAria = some "Error loading visitor count" := by
  have hinc : incrementVisitorCount cfg env.postOutcomes (renderLoading st) =
      ⟨handleError (renderLoading st), .error e,
        (makeRequest cfg env.postOutcomes).attemptsMade⟩ := by
    unfold incrementVisitorCount
    rw [hpost]
  unfold initCounter
  rw [hurl, hc]
  simp only [Bool.not_true, Bool.false_eq_true, if_false, hinc]
  by_cases hmem : "counter-error" ∈ st.containerClasses <;>
    simp [handleError, renderLoading, hc, hmem]

/-- Witness for C6: every POST attempt is transport-rejected; no GET attempt
occurs and the error state is rendered. -/
theorem increment_failure_skips_read_witness :
    (initCounter CONFIG
      ⟨some "https:", [.rejected "x", .rejected "x", .rejected "x"], [jsonOkWith (.num 7)]⟩
      dom0).getAttempts = 0 ∧
    (initCounter CONFIG
      ⟨some "https:", [.rejected "x", .rejected "x", .rejected "x"], [jsonOkWith (.num 7)]⟩
      dom0).succeeded = false ∧
    (initCounter CONFIG
      ⟨some "https:", [.rejected "x", .rejected "x", .rejected "x"], [jsonOkWith (.num 7)]⟩
      dom0).dom.containerText = "Unable to load visitor count" ∧
    "counter-error" ∈ (initCounter CONFIG
      ⟨some "https:", [.rejected "x", .rejected "x", .rejected "x"], [jsonOkWith (.num 7)]⟩
      dom0).dom.containerClasses ∧
    (initCounter CONFIG
      ⟨some "https:", [.rejected "x", .rejected "x", .rejected "x"], [jsonOkWith (.num 7)]⟩
      dom0).dom.containerAria = some "Error loading visitor count" :=
  increment_failure_skips_read CONFIG
    ⟨some "https:", [.rejected "x", .rejected "x", .rejected "x"], [jsonOkWith (.num 7)]⟩
    dom0 (.network "x") (by decide) (by decide) (by decide)

/-- The stored string after any render is the digits-only form of the
rendered count. -/
theorem updateDOM_storage (c : JSValue) (st : Dom) :
    (updateDOM c st).storage = some (sanitize (jsToString c)) := by
  by_cases h : st.countValueExists = true <;> simp [updateDOM, h]

/-- `makeRequest` returns only counts that pass validation. -/
theorem makeRequest_ok_valid (cfg : Config) (outs : List RawFetch) (c : JSValue)
    (h : (makeRequest cfg outs).result = .ok c) : isValidVisitorCount c = true := by
  simp only [makeRequest] at h
  cases hfr : (fetchWithRetryAndTimeout cfg outs).result with
  | error e => rw [hfr] at h; simp at h
  | ok r =>
    rw [hfr] at h
    by_cases hv : isValidVisitorCount r.count = true
    · simp only [hv, if_true] at h
      cases h
      exact hv
    · simp only [hv, if_false] at h
      simp at h

/-- C7: the `visitorCount` local-storage entry is written only on success:
the error-rendering routine leaves it unchanged, a failing increment or
read operation leaves it unchanged, and a successful operation stores
exactly the digits-only string of the validated count it returned — the
entry is never written speculatively before a successful response. -/
theorem storage_written_only_on_success :
    (∀ st : Dom, (handleError st).storage = st.storage) ∧
    (∀ (cfg : Config) (outs : List RawFetch) (st : Dom) (e : Err),
      (incrementVisitorCount cfg outs st).result = .error e →
      (incrementVisitorCount cfg outs st).dom.storage = st.storage) ∧
    (∀ (cfg : Config) (outs : List RawFetch) (st : Dom) (e : Err),
      (updateVisitorCount cfg outs st).result = .error e →
      (updateVisitorCount cfg outs st).dom.storage = st.storage) ∧
    (∀ (cfg : Config) (outs : List RawFetch) (st : Dom) (c : JSValue),
      (incrementVisitorCount cfg outs st).result = .ok c →
      isValidVisitorCount c = true ∧
      (incrementVisitorCount cfg outs st).dom.storage = some (sanitize (jsToString c))) ∧
    (∀ (cfg : Config) (outs : List RawFetch) (st : Dom) (c : JSValue),
      (updateVisitorCount cfg outs st).result = .ok c →
      isValidVisitorCount c = true ∧
      (updateVisitorCount cfg outs st).dom.storage = some (sanitize (jsToString c))) := by
  have hhe : ∀ st : Dom, (handleError st).storage = st.storage := by
    intro st
    by_cases hc : st.containerExists = true <;> simp [handleError, hc]
  refine ⟨hhe, ?_, ?_, ?_, ?_⟩
  · intro cfg outs st e h
    unfold incrementVisitorCount at h ⊢
    cases hmk : (makeRequest cfg outs).result with
    | ok c => rw [hmk] at h; simp at h
    | error e2 => exact hhe st
  · intro cfg outs st e h
    unfold updateVisitorCount at h ⊢
    cases hmk : (makeRequest cfg outs).result with
    | ok c => rw [hmk] at h; simp at h
    | error e2 => exact hhe st
  · intro cfg outs st c h
    unfold incrementVisitorCount at h ⊢
    cases hmk : (makeRequest cfg outs).result with
    | ok c2 =>
      rw [hmk] at h
      simp at h
      subst h
      exact ⟨makeRequest_ok_valid cfg outs c2 hmk, updateDOM_storage c2 st⟩
    | error e2 => rw [hmk] at h; simp at h
  · intro cfg outs st c h
    unfold updateVisitorCount at h ⊢
    cases hmk : (makeRequest cfg outs).result with
    | ok c2 =>
      rw [hmk] at h
      simp at h
      subst h
      exact ⟨makeRequest_ok_valid cfg outs c2 hmk, updateDOM_storage c2 st⟩
    | error e2 => rw [hmk] at h; simp at h

/-- Witness for C7: the error routine and failing operations leave storage
unchanged; a successful increment returning 42 stores "42". -/
theorem storage_written_only_on_success_witness :
    (handleError dom0).storage = dom0.storage ∧
    (incrementVisitorCount CONFIG [.rejected "x"] dom0).dom.storage = dom0.storage ∧
    (updateVisitorCount CONFIG [.rejected "x"] dom0).dom.storage = dom0.storage ∧
    (isValidVisitorCount (.num 42) = true ∧
      (incrementVisitorCount CONFIG [jsonOkWith (.num 42)] dom0).dom.storage
        = some (sanitize (jsToString (.num 42)))) ∧
    (isValidVisitorCount (.num 42) = true ∧
      (updateVisitorCount CONFIG [jsonOkWith (.num 42)] dom0).dom.storage
        = some (sanitize (jsToString (.num 42)))) := by
  have h := storage_written_only_on_success
  exact ⟨h.1 dom0,
    h.2.1 CONFIG [.rejected "x"] dom0 (.network "x") rfl,
    h.2.2.1 CONFIG [.rejected "x"] dom0 (.network "x") rfl,
    h.2.2.2.1 CONFIG [jsonOkWith (.num 42)] dom0 (.num 42) rfl,
    h.2.2.2.2 CONFIG [jsonOkWith (.num 42)] dom0 (.num 42) rfl⟩

/-- C8: a successful increment whose validated response count is 42 stores
the digits-only string "42" in local storage, sets the displayed text by
reading the value back from storage (the displayed text equals the stored
string), displays exactly "42", and sets an aria-label containing "42". -/
theorem increment_42_renders_from_storage (cfg : Config) (outs : List RawFetch) (st : Dom)
    (hcv : st.countValueExists = true)
    (hpost : (makeRequest cfg outs).result = .ok (.num 42)) :
    (incrementVisitorCount cfg outs st).dom.storage = some "42" ∧
    (incrementVisitorCount cfg outs st).dom.valueText = "42" ∧
    (incrementVisitorCount cfg outs st).dom.valueText
      = ((incrementVisitorCount cfg outs st).dom.storage).getD "" ∧
    (incrementVisitorCount cfg outs st).dom.valueAria = some "Visitor count: 42" ∧
    strIncludes "42" "Visitor count: 42" = true := by
  have hs : sanitize (jsToString (.num 42)) = "42" := rfl
  have hstr : strIncludes "42" "Visitor count: 42" = true := by decide
  unfold incrementVisitorCount
  rw [hpost]
  simp [updateDOM, hs, hcv, hstr]

/-- Witness for C8: a concrete successful increment returning 42 on a page
whose value element exists. -/
theorem increment_42_renders_from_storage_witness :
    (incrementVisitorCount CONFIG [jsonOkWith (.num 42)]
      (renderLoading dom0)).dom.storage = some "42" ∧
    (incrementVisitorCount CONFIG [jsonOkWith (.num 42)]
      (renderLoading dom0)).dom.valueText = "42" ∧
    (incrementVisitorCount CONFIG [jsonOkWith (.num 42)]
      (renderLoading dom0)).dom.valueText
      = ((incrementVisitorCount CONFIG [jsonOkWith (.num 42)]
          (renderLoading dom0)).dom.storage).getD "" ∧
    (incrementVisitorCount CONFIG [jsonOkWith (.num 42)]
      (renderLoading dom0)).dom.valueAria = some "Visitor count: 42" ∧
    strIncludes "42" "Visitor count: 42" = true :=
  increment_42_renders_from_storage CONFIG [jsonOkWith (.num 42)] (renderLoading dom0)
    (by decide) (by decide)

/-- C9: rendering is idempotent — for every count value and every DOM and
storage state, rendering the count twice in succession leaves exactly the
state of rendering it once: the deterministic digits-only sanitization
writes the same stored string, and the displayed text is re-read from it. -/
theorem updateDOM_idempotent (c : JSValue) (st : Dom) :
    updateDOM c (updateDOM c st) = updateDOM c st := by
  by_cases h : st.countValueExists = true <;> simp [updateDOM, h]

/-- C10: with a valid configured URL but no container element in the
document, initialization fails before any network request: reading the
missing element raises, the error is caught and handed to the
error-rendering routine, zero POST and GET fetch attempts occur, and —
the container being absent — the routine changes nothing, so the page
does not crash. -/
theorem missing_container_no_requests (cfg : Config) (env : Env) (st : Dom)
    (hurl : isValidUrl env.urlProtocol = true) (hc : st.containerExists = false) :
    initCounter cfg env st = ⟨handleError st, 0, 0, false⟩ ∧ handleError st = st := by
  constructor
  · unfold initCounter
    rw [hurl, hc]
    simp
  · unfold handleError
    rw [hc]
    simp

/-- Witness for C10: a page state without the container element. -/
theorem missing_container_no_requests_witness :
    initCounter CONFIG ⟨some "https:", [jsonOkWith (.num 7)], [jsonOkWith (.num 7)]⟩
        { dom0 with containerExists := false } =
      ⟨handleError { dom0 with containerExists := false }, 0, 0, false⟩ ∧
    handleError { dom0 with containerExists := false }
      = { dom0 with containerExists := false } :=
  missing_container_no_requests CONFIG
    ⟨some "https:", [jsonOkWith (.num 7)], [jsonOkWith (.num 7)]⟩
    { dom0 with containerExists := false } (by decide) (by decide)

end VisitorCounter
